import Mathlib

/-!
Shallow embedding of the reference-counted smart-pointer library in
`src/shared_ptr.h` and `src/shared_ptr.cpp`: the `control_block` counters, the
owning pointer `shared_ptr`, the observer pointer `weak_ptr`, and the
observable history of one managed allocation (destruction-hook invocations and
control-block deallocation), together with a small-step trace machine over all
constructions, copies, moves and destructions sharing one control block.

Raw pointers are modelled as `Option Nat` (`none` = null, `some a` = the
address `a`).  Since every claim concerns the pointers sharing one control
block, a `shared_ptr`/`weak_ptr` value carries a `Bool` saying whether its
control-block field links to that block (`false` = the field is null), and a
`World` carries the block's state together with the event history:
`hook_log` records each `delete_object()` invocation with the pointer the
hook acts on (the stored raw pointer handed to the deleter for `cb_separate`,
the embedded object's address for `cb_inplace`), and `freed` counts the
`delete cb` deallocations.
-/

namespace SharedPtrModel

/-- The two counters of `control_block` (src/shared_ptr.h lines 7-25). -/
structure control_block where
  shared_cnt : Nat
  weak_cnt : Nat
deriving DecidableEq

/-- `control_block::control_block()` zero-initializes both counters
(src/shared_ptr.cpp lines 5-6). -/
def control_block.mk0 : control_block := { shared_cnt := 0, weak_cnt := 0 }

/-- `control_block::release_shared` (src/shared_ptr.cpp lines 8-11); the
`assert(shared_cnt > 0)` is a debug-build contract, established separately as
an invariant of every reachable state. -/
def control_block.release_shared (c : control_block) : control_block :=
  { c with shared_cnt := c.shared_cnt - 1 }

/-- `control_block::release_weak` (src/shared_ptr.cpp lines 13-16). -/
def control_block.release_weak (c : control_block) : control_block :=
  { c with weak_cnt := c.weak_cnt - 1 }

/-- `control_block::inc_shared` (src/shared_ptr.cpp lines 18-20). -/
def control_block.inc_shared (c : control_block) : control_block :=
  { c with shared_cnt := c.shared_cnt + 1 }

/-- `control_block::inc_weak` (src/shared_ptr.cpp lines 22-24). -/
def control_block.inc_weak (c : control_block) : control_block :=
  { c with weak_cnt := c.weak_cnt + 1 }

/-- The observable state and history of one managed allocation: the control
block (`none` once `delete cb` ran), the pointer the block's destruction hook
acts on (`cb_separate` stores the adopted raw pointer and its `delete_object`
passes it to the deleter, src/shared_ptr.h lines 28-40; `cb_inplace` destroys
the object in its embedded storage, lines 43-61), the log of `delete_object`
invocations, and the number of `delete cb` deallocations. -/
structure World where
  cb : Option control_block
  obj_ptr : Option Nat
  hook_log : List (Option Nat)
  freed : Nat
deriving DecidableEq

/-- `cb->get_shared_cnt()` as read through a world (src/shared_ptr.cpp
lines 26-28); reading a deallocated block never happens in a reachable
state. -/
def World.get_shared_cnt (w : World) : Nat :=
  match w.cb with
  | some c => c.shared_cnt
  | none => 0

/-- `cb->get_weak_cnt()` (src/shared_ptr.cpp lines 30-32). -/
def World.get_weak_cnt (w : World) : Nat :=
  match w.cb with
  | some c => c.weak_cnt
  | none => 0

/-- `cb->inc_shared()` performed on the world's block. -/
def World.inc_shared (w : World) : World :=
  { w with cb := w.cb.map control_block.inc_shared }

/-- `cb->inc_weak()` performed on the world's block. -/
def World.inc_weak (w : World) : World :=
  { w with cb := w.cb.map control_block.inc_weak }

/-- `cb->delete_object()`: the polymorphic destruction hook.  For
`cb_separate` it applies the stored deleter to the stored raw pointer
(src/shared_ptr.h lines 33-36), for `cb_inplace` it runs the managed object's
destructor in the embedded storage (lines 50-53); either way one invocation on
`obj_ptr` is appended to the log.  Counters are unchanged. -/
def World.delete_object (w : World) : World :=
  { w with hook_log := w.hook_log ++ [w.obj_ptr] }

/-- `delete cb`: the control block is deallocated. -/
def World.delete_cb (w : World) : World :=
  { w with cb := none, freed := w.freed + 1 }

/-- Body of `~shared_ptr()` in the `cb != nullptr` case (src/shared_ptr.h
lines 116-128): `cb->release_shared()`; if the shared count is now zero,
`cb->delete_object()`; if both counts are zero, `delete cb`. -/
def World.shared_release (w : World) : World :=
  let w1 : World := { w with cb := w.cb.map control_block.release_shared }
  let w2 : World := if w1.get_shared_cnt = 0 then w1.delete_object else w1
  if w2.get_shared_cnt = 0 ∧ w2.get_weak_cnt = 0 then w2.delete_cb else w2

/-- Body of `~weak_ptr()` in the `cb != nullptr` case (src/shared_ptr.h
lines 347-356): `cb->release_weak()`; if both counts are zero, `delete cb`.
No `delete_object` call occurs on this path. -/
def World.weak_release (w : World) : World :=
  let w1 : World := { w with cb := w.cb.map control_block.release_weak }
  if w1.get_shared_cnt = 0 ∧ w1.get_weak_cnt = 0 then w1.delete_cb else w1

/-- The world right after a successful control-block creation: the
`control_block` constructor zero-initializes the counters and the creating
path then calls `inc_shared()` once (src/shared_ptr.h lines 78-85 for
`cb_separate`, lines 234-239 for `cb_inplace`), so `shared_cnt = 1`,
`weak_cnt = 0`; the hook will act on `p`. -/
def World.fresh (p : Option Nat) : World :=
  { cb := some control_block.mk0.inc_shared
    obj_ptr := p
    hook_log := []
    freed := 0 }

/-- An owning pointer value: its raw pointer and whether its `cb` field links
to the world's control block (src/shared_ptr.h lines 220-222). -/
structure shared_ptr where
  ptr : Option Nat
  cb : Bool
deriving DecidableEq

/-- The default and `nullptr_t` constructors (src/shared_ptr.h lines 68-72):
both fields null. -/
def shared_ptr.null : shared_ptr := { ptr := none, cb := false }

/-- The aliasing constructor `shared_ptr(const shared_ptr<Y>& r, T* ptr)`
(src/shared_ptr.h lines 88-94): stores the caller-supplied raw pointer, copies
`r`'s control-block link, and increments the shared count only when that link
is non-null. -/
def shared_ptr.aliasCtor (r : shared_ptr) (p : Option Nat) (w : World) :
    shared_ptr × World :=
  if r.cb then ({ ptr := p, cb := true }, w.inc_shared)
  else ({ ptr := p, cb := false }, w)

/-- The copy constructors (src/shared_ptr.h lines 96-101) delegate to the
aliasing constructor with `r.ptr`. -/
def shared_ptr.copyCtor (r : shared_ptr) (w : World) : shared_ptr × World :=
  shared_ptr.aliasCtor r r.ptr w

/-- The move constructors (src/shared_ptr.h lines 103-114): the new pointer
takes both fields, the source is nulled; no counter changes. -/
def shared_ptr.moveCtor (r : shared_ptr) : shared_ptr × shared_ptr :=
  (r, shared_ptr.null)

/-- `~shared_ptr()` (src/shared_ptr.h lines 116-128): a null `cb` field means
no effect, otherwise the shared-release path runs on the world. -/
def shared_ptr.destroy (p : shared_ptr) (w : World) : World :=
  if p.cb then w.shared_release else w

/-- `use_count()` (src/shared_ptr.h lines 188-190): zero when the `cb` field
is null, the block's shared count otherwise. -/
def shared_ptr.use_count (p : shared_ptr) (w : World) : Nat :=
  if p.cb then w.get_shared_cnt else 0

/-- `operator bool()` (src/shared_ptr.h lines 192-194): `get() != nullptr`. -/
def shared_ptr.toBool (p : shared_ptr) : Bool :=
  p.ptr.isSome

/-- The adopting constructor `shared_ptr(Y* ptr, Deleter d)`
(src/shared_ptr.h lines 78-85): it tries `new cb_separate<Y, Deleter>(ptr, d)`
(which stores `ptr` and `d`) and then `cb->inc_shared()`; if the allocation
throws, the function-try-block's handler runs `d(ptr); throw;`.  `allocOk`
is the allocation outcome; the `error` payload is the list of deleter
invocations performed before the failure propagated, each with its argument. -/
def adopt (p : Option Nat) (allocOk : Bool) :
    Except (List (Option Nat)) (shared_ptr × World) :=
  if allocOk then Except.ok ({ ptr := p, cb := true }, World.fresh p)
  else Except.error [p]

/-- An observer pointer value (src/shared_ptr.h lines 377-379). -/
structure weak_ptr where
  ptr : Option Nat
  cb : Bool
deriving DecidableEq

/-- The default constructor (src/shared_ptr.h lines 276-277). -/
def weak_ptr.null : weak_ptr := { ptr := none, cb := false }

/-- `weak_ptr(const shared_ptr<Y>&)` (src/shared_ptr.h lines 294-300): copies
both fields and increments the weak count when the link is non-null. -/
def weak_ptr.fromShared (r : shared_ptr) (w : World) : weak_ptr × World :=
  if r.cb then ({ ptr := r.ptr, cb := true }, w.inc_weak)
  else ({ ptr := r.ptr, cb := false }, w)

/-- The weak-pointer copy constructors (src/shared_ptr.h lines 279-292). -/
def weak_ptr.copyCtor (r : weak_ptr) (w : World) : weak_ptr × World :=
  if r.cb then ({ ptr := r.ptr, cb := true }, w.inc_weak)
  else ({ ptr := r.ptr, cb := false }, w)

/-- `~weak_ptr()` (src/shared_ptr.h lines 347-356). -/
def weak_ptr.destroy (p : weak_ptr) (w : World) : World :=
  if p.cb then w.weak_release else w

/-- `lock()` (src/shared_ptr.h lines 368-375): a null `cb` field or a zero
shared count yields a default-constructed `shared_ptr`; otherwise
`cb->inc_shared()` runs and the private constructor builds an owning pointer
over the same raw pointer and block. -/
def weak_ptr.lock (p : weak_ptr) (w : World) : shared_ptr × World :=
  if p.cb = false ∨ w.get_shared_cnt = 0 then (shared_ptr.null, w)
  else ({ ptr := p.ptr, cb := true }, w.inc_shared)

/-- Outcome of `reset` to a raw pointer.  `fail` carries the deleter
invocations of the failed temporary construction and returns `*this` and the
old block's world, which the failure left untouched; `ok` carries the new
`*this`, the new block's world, and the old block's world after the old
ownership was released. -/
inductive ResetResult where
  | fail (deleter_log : List (Option Nat)) (self : shared_ptr) (oldW : World)
  | ok (self : shared_ptr) (newW : World) (oldW : World)
deriving DecidableEq

/-- `reset()` (src/shared_ptr.h lines 156-158): `shared_ptr().swap(*this)`.
The default-constructed temporary swaps its null fields into `*this`; the
temporary, now holding the old fields, is destroyed at the end of the
statement, releasing the old ownership through the destructor path. -/
def shared_ptr.reset_null (self : shared_ptr) (w : World) : shared_ptr × World :=
  (shared_ptr.null, shared_ptr.destroy self w)

/-- `reset(Y* ptr)` and `reset(Y* ptr, Deleter d)` (src/shared_ptr.h lines
160-168): `shared_ptr<T>(ptr[, d]).swap(*this)`.  The adopting temporary is
constructed first; if its control-block allocation fails the exception
propagates before `swap` ever runs, so `*this` and the old block are
untouched.  On success `swap` installs the new pointer and block into `*this`
and the temporary, now holding the old fields, is destroyed at the end of the
statement, releasing the old ownership. -/
def shared_ptr.reset_ptr (self : shared_ptr) (w : World) (p : Option Nat)
    (allocOk : Bool) : ResetResult :=
  match adopt p allocOk with
  | Except.error log => ResetResult.fail log self w
  | Except.ok r => ResetResult.ok r.1 r.2 (shared_ptr.destroy self w)

/-- A C++ value category as far as forwarding observes it: whether an
argument expression is an lvalue or an rvalue. -/
inductive Cat where
  | lvalue
  | rvalue
deriving DecidableEq

/-- The constructor of `cb_inplace` (src/shared_ptr.h lines 45-48)
placement-news `Y(std::forward<Args>(args)...)`; its `Args` are deduced from
its own call, so `std::forward` hands `Y`'s constructor exactly the value
categories the arguments arrived with. -/
def cb_inplace_ctor_args (args : List (Nat × Cat)) : List (Nat × Cat) :=
  args

/-- How `make_shared` passes one argument on (src/shared_ptr.h line 236): the
pack is expanded as plain `args...`, and a named parameter is an lvalue
expression — there is no `std::forward` in `make_shared`. -/
def as_lvalue (a : Nat × Cat) : Nat × Cat :=
  (a.1, Cat.lvalue)

/-- `make_shared` (src/shared_ptr.h lines 234-239): allocates the
`cb_inplace` block, whose embedded storage for the managed object is at
`addr` and whose constructor receives `args...`; calls `p->inc_shared()`;
returns the owning pointer built by the private constructor (lines 229-231)
from `p->get()` — the embedded storage — and the block, with no further
count change.  The third component records the values and value categories
with which the managed object's constructor receives the arguments. -/
def make_shared (addr : Nat) (args : List (Nat × Cat)) :
    shared_ptr × World × List (Nat × Cat) :=
  ({ ptr := some addr, cb := true }, World.fresh (some addr),
    cb_inplace_ctor_args (args.map as_lvalue))

/-!
The trace machine: an arbitrary interleaving of the library's operations on
the owning and observer pointers that share one control block.  Pointer
values with the same `cb` link are interchangeable for the block's evolution,
so a state keeps a census of the live handles: `nS`/`nW` count the live
`shared_ptr`/`weak_ptr` values whose `cb` field links to the block (these
equal the block's counters in every reachable state), and `uS`/`uW` count the
live handles whose `cb` field is null (default-constructed, moved-from,
aliased-from-empty, failed `lock()` results).  Each operation below is one
source operation; an operation whose required handle does not exist leaves
the state unchanged, so every real call sequence is some `Op` list.
Assignment operators (src/shared_ptr.h lines 130-154, 315-345) are the
copy/move constructor followed by `swap` with a temporary whose destruction
is the corresponding destroy, so they are compositions of these operations.
-/

/-- One operation of the library on the handles sharing the block. -/
inductive Op where
  /-- copy or aliasing construction from a live owner linked to the block
  (src/shared_ptr.h lines 88-101) -/
  | copyS
  /-- copy or aliasing construction from a live owner with a null `cb` field -/
  | copyNullS
  /-- move construction from a live linked owner (lines 103-114): the source
  keeps existing as a null handle -/
  | moveS
  /-- move construction from a live null owner -/
  | moveNullS
  /-- destruction of a live linked owner (lines 116-128) -/
  | destroyS
  /-- destruction of a live null owner: `cb == nullptr`, no effect -/
  | destroyNullS
  /-- `weak_ptr(const shared_ptr&)` from a live linked owner (lines 294-300) -/
  | weakFromS
  /-- `weak_ptr(const shared_ptr&)` from a live null owner -/
  | weakFromNullS
  /-- weak-pointer copy construction from a live linked observer
  (lines 279-292) -/
  | copyW
  /-- weak-pointer copy construction from a live null observer -/
  | copyNullW
  /-- weak-pointer move construction from a live linked observer
  (lines 302-313) -/
  | moveW
  /-- weak-pointer move construction from a live null observer -/
  | moveNullW
  /-- destruction of a live linked observer (lines 347-356) -/
  | destroyW
  /-- destruction of a live null observer -/
  | destroyNullW
  /-- `lock()` on a live linked observer (lines 368-375) -/
  | lockW
  /-- `lock()` on a live null observer: returns a default-constructed owner -/
  | lockNullW
deriving DecidableEq

/-- A trace-machine state: the world plus the census of live handles. -/
structure Sys where
  w : World
  nS : Nat
  uS : Nat
  nW : Nat
  uW : Nat
deriving DecidableEq

/-- One step of the trace machine; each branch is the world effect of the
cited source operation. -/
def Sys.step (s : Sys) (op : Op) : Sys :=
  match op with
  | Op.copyS =>
      if s.nS = 0 then s
      else { s with nS := s.nS + 1, w := s.w.inc_shared }
  | Op.copyNullS => if s.uS = 0 then s else { s with uS := s.uS + 1 }
  | Op.moveS => if s.nS = 0 then s else { s with uS := s.uS + 1 }
  | Op.moveNullS => if s.uS = 0 then s else { s with uS := s.uS + 1 }
  | Op.destroyS =>
      if s.nS = 0 then s
      else { s with nS := s.nS - 1, w := s.w.shared_release }
  | Op.destroyNullS => if s.uS = 0 then s else { s with uS := s.uS - 1 }
  | Op.weakFromS =>
      if s.nS = 0 then s
      else { s with nW := s.nW + 1, w := s.w.inc_weak }
  | Op.weakFromNullS => if s.uS = 0 then s else { s with uW := s.uW + 1 }
  | Op.copyW =>
      if s.nW = 0 then s
      else { s with nW := s.nW + 1, w := s.w.inc_weak }
  | Op.copyNullW => if s.uW = 0 then s else { s with uW := s.uW + 1 }
  | Op.moveW => if s.nW = 0 then s else { s with uW := s.uW + 1 }
  | Op.moveNullW => if s.uW = 0 then s else { s with uW := s.uW + 1 }
  | Op.destroyW =>
      if s.nW = 0 then s
      else { s with nW := s.nW - 1, w := s.w.weak_release }
  | Op.destroyNullW => if s.uW = 0 then s else { s with uW := s.uW - 1 }
  | Op.lockW =>
      if s.nW = 0 then s
      else if s.w.get_shared_cnt = 0 then { s with uS := s.uS + 1 }
      else { s with nS := s.nS + 1, w := s.w.inc_shared }
  | Op.lockNullW => if s.uW = 0 then s else { s with uS := s.uS + 1 }

/-- The state right after the factory or a successful adoption produced the
first owning pointer (shared count one, weak count zero, one live linked
owner). -/
def Sys.init (p : Option Nat) : Sys :=
  { w := World.fresh p, nS := 1, uS := 0, nW := 0, uW := 0 }

/-- Run a whole operation sequence from the creation state. -/
def Sys.run (p : Option Nat) (ops : List Op) : Sys :=
  ops.foldl Sys.step (Sys.init p)

/-- The reachability invariant: the handle census matches the block's
counters while the block is allocated; the destruction hook has run exactly
once on the original pointer `p` when no linked owner remains and not at all
before; the block is deallocated exactly once, exactly when both censuses are
zero, and only after the hook ran. -/
def Inv (p : Option Nat) (s : Sys) : Prop :=
  s.w.obj_ptr = p ∧
  ((∃ c, s.w.cb = some c ∧ c.shared_cnt = s.nS ∧ c.weak_cnt = s.nW ∧
      s.w.freed = 0 ∧ s.w.hook_log = (if s.nS = 0 then [p] else []) ∧
      (s.nS ≠ 0 ∨ s.nW ≠ 0)) ∨
   (s.w.cb = none ∧ s.nS = 0 ∧ s.nW = 0 ∧ s.w.freed = 1 ∧
      s.w.hook_log = [p]))

theorem Inv.init (p : Option Nat) : Inv p (Sys.init p) := by
  refine ⟨rfl, Or.inl ⟨control_block.mk0.inc_shared, rfl, rfl, rfl, rfl, ?_, ?_⟩⟩
  · simp [Sys.init, World.fresh]
  · simp [Sys.init]

theorem Inv.step {p : Option Nat} {s : Sys} (h : Inv p s) (op : Op) :
    Inv p (Sys.step s op) := by
  obtain ⟨w, nS, uS, nW, uW⟩ := s
  obtain ⟨cb, obj, log, fr⟩ := w
  obtain ⟨hobj, hc⟩ := h
  simp only at hobj
  subst hobj
  rcases hc with ⟨c, hcb, hsh, hwk, hfr, hlog, hpos⟩ | ⟨hcb, hnS, hnW, hfr, hlog⟩
  · obtain ⟨csh, cwk⟩ := c
    simp only at hcb hsh hwk hfr hlog hpos
    subst hcb hsh hwk hfr
    cases op <;>
      simp only [Sys.step, World.inc_shared, World.inc_weak, World.shared_release,
        World.weak_release, World.get_shared_cnt, World.get_weak_cnt,
        World.delete_object, World.delete_cb, control_block.inc_shared,
        control_block.inc_weak, control_block.release_shared,
        control_block.release_weak, Option.map_some, Inv] <;>
      split_ifs <;>
      simp_all [World.delete_object, World.delete_cb, control_block.inc_shared,
        control_block.inc_weak, control_block.release_shared,
        control_block.release_weak]
  · simp only at hcb hnS hnW hfr hlog
    subst hcb hnS hnW hfr hlog
    cases op <;>
      simp only [Sys.step, World.inc_shared, World.inc_weak, World.shared_release,
        World.weak_release, World.get_shared_cnt, World.get_weak_cnt,
        World.delete_object, World.delete_cb, Option.map_none, Inv] <;>
      split_ifs <;>
      simp_all

theorem Inv.run (p : Option Nat) (ops : List Op) : Inv p (Sys.run p ops) := by
  have key : ∀ (l : List Op) (s : Sys), Inv p s → Inv p (l.foldl Sys.step s) := by
    intro l
    induction l with
    | nil => intro s hs; exact hs
    | cons op rest ih => intro s hs; exact ih _ (hs.step op)
  exact key ops _ (Inv.init p)

/-- Step characterization of the destruction hook: a step either leaves the
hook log unchanged, or it is the destruction of a linked owner that takes the
shared count from one to zero and appends the one hook invocation on the
original pointer. -/
theorem hook_step {p : Option Nat} {s : Sys} (h : Inv p s) (op : Op) :
    (Sys.step s op).w.hook_log = s.w.hook_log ∨
    (op = Op.destroyS ∧ s.nS = 1 ∧ (Sys.step s op).nS = 0 ∧
      s.w.hook_log = [] ∧ (Sys.step s op).w.hook_log = [p]) := by
  obtain ⟨w, nS, uS, nW, uW⟩ := s
  obtain ⟨cb, obj, log, fr⟩ := w
  obtain ⟨hobj, hc⟩ := h
  simp only at hobj
  subst hobj
  rcases hc with ⟨c, hcb, hsh, hwk, hfr, hlog, hpos⟩ | ⟨hcb, hnS, hnW, hfr, hlog⟩
  · obtain ⟨csh, cwk⟩ := c
    simp only at hcb hsh hwk hfr hlog hpos
    subst hcb hsh hwk hfr
    cases op <;>
      simp only [Sys.step, World.inc_shared, World.inc_weak, World.shared_release,
        World.weak_release, World.get_shared_cnt, World.get_weak_cnt,
        World.delete_object, World.delete_cb, control_block.inc_shared,
        control_block.inc_weak, control_block.release_shared,
        control_block.release_weak, Option.map_some] <;>
      split_ifs <;>
      simp_all [World.delete_object, World.delete_cb, control_block.release_shared,
        control_block.release_weak] <;>
      omega
  · simp only at hcb hnS hnW hfr hlog
    subst hcb hnS hnW hfr hlog
    cases op <;>
      simp only [Sys.step, World.inc_shared, World.inc_weak, World.shared_release,
        World.weak_release, World.get_shared_cnt, World.get_weak_cnt,
        World.delete_object, World.delete_cb, Option.map_none] <;>
      split_ifs <;>
      simp_all

/-- Step characterization of the deallocation: a step either leaves the count
of `delete cb` calls unchanged, or it is the destruction of a linked owner or
a linked observer after which both counts are zero, the block is gone, and
the hook already ran. -/
theorem freed_step {p : Option Nat} {s : Sys} (h : Inv p s) (op : Op) :
    (Sys.step s op).w.freed = s.w.freed ∨
    ((op = Op.destroyS ∨ op = Op.destroyW) ∧ s.w.freed = 0 ∧
      (Sys.step s op).w.freed = 1 ∧ (Sys.step s op).w.cb = none ∧
      (Sys.step s op).nS = 0 ∧ (Sys.step s op).nW = 0 ∧
      (Sys.step s op).w.hook_log = [p]) := by
  obtain ⟨w, nS, uS, nW, uW⟩ := s
  obtain ⟨cb, obj, log, fr⟩ := w
  obtain ⟨hobj, hc⟩ := h
  simp only at hobj
  subst hobj
  rcases hc with ⟨c, hcb, hsh, hwk, hfr, hlog, hpos⟩ | ⟨hcb, hnS, hnW, hfr, hlog⟩
  · obtain ⟨csh, cwk⟩ := c
    simp only at hcb hsh hwk hfr hlog hpos
    subst hcb hsh hwk hfr
    cases op <;>
      simp only [Sys.step, World.inc_shared, World.inc_weak, World.shared_release,
        World.weak_release, World.get_shared_cnt, World.get_weak_cnt,
        World.delete_object, World.delete_cb, control_block.inc_shared,
        control_block.inc_weak, control_block.release_shared,
        control_block.release_weak, Option.map_some] <;>
      split_ifs <;>
      simp_all [World.delete_object, World.delete_cb, control_block.release_shared,
        control_block.release_weak]
  · simp only at hcb hnS hnW hfr hlog
    subst hcb hnS hnW hfr hlog
    cases op <;>
      simp only [Sys.step, World.inc_shared, World.inc_weak, World.shared_release,
        World.weak_release, World.get_shared_cnt, World.get_weak_cnt,
        World.delete_object, World.delete_cb, Option.map_none] <;>
      split_ifs <;>
      simp_all

/-- In a reachable state, every owning pointer linked to the block reports
the census of linked owners as its `use_count()`, whatever its raw pointer. -/
theorem use_count_linked {p : Option Nat} {s : Sys} (h : Inv p s)
    (q : Option Nat) :
    shared_ptr.use_count { ptr := q, cb := true } s.w = s.nS := by
  obtain ⟨hobj, hc⟩ := h
  rcases hc with ⟨c, hcb, hsh, hwk, hfr, hlog, hpos⟩ | ⟨hcb, hnS, hnW, hfr, hlog⟩
  · simp [shared_ptr.use_count, World.get_shared_cnt, hcb, hsh]
  · simp [shared_ptr.use_count, World.get_shared_cnt, hcb, hnS]

/-- Claim C1: over every sequence of constructions, copies, moves and
destructions of owning and observer pointers sharing one control block
created on the pointer `p`, the managed object's destruction hook (the
object's destructor for `cb_inplace`, the stored deleter applied to the
original raw pointer for `cb_separate`) is invoked at most once, is invoked
exactly when no owning reference is left (equivalently, when the shared count
is zero), always with the original pointer `p`, and the one step that invokes
it is the destruction of a linked owning pointer that takes the shared count
from one to zero — never the release of an observer reference. -/
theorem destroy_hook_exactly_once (p : Option Nat) (ops : List Op) :
    (Sys.run p ops).w.hook_log.length ≤ 1
    ∧ (Sys.run p ops).w.hook_log = (if (Sys.run p ops).nS = 0 then [p] else [])
    ∧ ((Sys.run p ops).w.hook_log = [p] ↔ (Sys.run p ops).w.get_shared_cnt = 0)
    ∧ (∀ op, (Sys.step (Sys.run p ops) op).w.hook_log ≠ (Sys.run p ops).w.hook_log →
        op = Op.destroyS ∧ (Sys.run p ops).nS = 1
        ∧ (Sys.step (Sys.run p ops) op).nS = 0
        ∧ (Sys.run p ops).w.hook_log = []
        ∧ (Sys.step (Sys.run p ops) op).w.hook_log = [p]) := by
  have h := Inv.run p ops
  obtain ⟨hobj, hc⟩ := h
  refine ⟨?_, ?_, ?_, ?_⟩
  · rcases hc with ⟨c, hcb, hsh, hwk, hfr, hlog, hpos⟩ | ⟨hcb, hnS, hnW, hfr, hlog⟩
    · rw [hlog]; split <;> simp
    · rw [hlog]; simp
  · rcases hc with ⟨c, hcb, hsh, hwk, hfr, hlog, hpos⟩ | ⟨hcb, hnS, hnW, hfr, hlog⟩ <;>
      simp_all
  · rcases hc with ⟨c, hcb, hsh, hwk, hfr, hlog, hpos⟩ | ⟨hcb, hnS, hnW, hfr, hlog⟩ <;>
      simp_all [World.get_shared_cnt]
  · intro op hne
    rcases hook_step (Inv.run p ops) op with heq | hdes
    · exact absurd heq hne
    · exact ⟨hdes.1, hdes.2.1, hdes.2.2.1, hdes.2.2.2.1, hdes.2.2.2.2⟩

/-- Claim C2: over every sequence of operations mixing owning and observer
pointers over one control block, the block is deallocated at most once; it is
deallocated exactly when it no longer exists as a block, which happens exactly
when both the owning and the observing census are zero; whenever it has been
deallocated the destruction hook had already run; and the one step that
deallocates it is a destruction of a linked owner or of a linked observer
(whichever kind acts last) after which both counts are zero and the hook's
single invocation is already in the log. -/
theorem cb_freed_exactly_once (p : Option Nat) (ops : List Op) :
    (Sys.run p ops).w.freed ≤ 1
    ∧ ((Sys.run p ops).w.freed = 1 ↔ (Sys.run p ops).w.cb = none)
    ∧ ((Sys.run p ops).w.cb = none ↔
        (Sys.run p ops).nS = 0 ∧ (Sys.run p ops).nW = 0)
    ∧ ((Sys.run p ops).w.freed = 1 → (Sys.run p ops).w.hook_log = [p])
    ∧ (∀ op, (Sys.step (Sys.run p ops) op).w.freed ≠ (Sys.run p ops).w.freed →
        (op = Op.destroyS ∨ op = Op.destroyW)
        ∧ (Sys.step (Sys.run p ops) op).w.freed = 1
        ∧ (Sys.step (Sys.run p ops) op).w.cb = none
        ∧ (Sys.step (Sys.run p ops) op).nS = 0
        ∧ (Sys.step (Sys.run p ops) op).nW = 0
        ∧ (Sys.step (Sys.run p ops) op).w.hook_log = [p]) := by
  have h := Inv.run p ops
  obtain ⟨hobj, hc⟩ := h
  refine ⟨?_, ?_, ?_, ?_, ?_⟩
  · rcases hc with ⟨c, hcb, hsh, hwk, hfr, hlog, hpos⟩ | ⟨hcb, hnS, hnW, hfr, hlog⟩ <;>
      simp_all
  · rcases hc with ⟨c, hcb, hsh, hwk, hfr, hlog, hpos⟩ | ⟨hcb, hnS, hnW, hfr, hlog⟩ <;>
      simp_all
  · rcases hc with ⟨c, hcb, hsh, hwk, hfr, hlog, hpos⟩ | ⟨hcb, hnS, hnW, hfr, hlog⟩ <;>
      simp_all
    omega
  · rcases hc with ⟨c, hcb, hsh, hwk, hfr, hlog, hpos⟩ | ⟨hcb, hnS, hnW, hfr, hlog⟩ <;>
      simp_all
  · intro op hne
    rcases freed_step (Inv.run p ops) op with heq | hdes
    · exact absurd heq hne
    · exact ⟨hdes.1, hdes.2.2.1, hdes.2.2.2.1, hdes.2.2.2.2.1,
        hdes.2.2.2.2.2.1, hdes.2.2.2.2.2.2⟩

/-- Claim C8: `use_count()` of a default-constructed owning pointer is zero in
any world; right after one successful adoption the produced owner reports one;
in every reachable state each owning pointer linked to the block reports the
census of linked owners (so after `n` additional copies every copy reports
`n + 1`); copying a linked owner raises that census and every copy's report by
one, and destroying a linked owner lowers both by one. -/
theorem use_count_counts_owners (p : Option Nat) (ops : List Op)
    (q : Option Nat) :
    shared_ptr.use_count shared_ptr.null (Sys.run p ops).w = 0
    ∧ shared_ptr.use_count { ptr := p, cb := true } (World.fresh p) = 1
    ∧ shared_ptr.use_count { ptr := q, cb := true } (Sys.run p ops).w
        = (Sys.run p ops).nS
    ∧ ((Sys.run p ops).nS ≠ 0 →
        (Sys.step (Sys.run p ops) Op.copyS).nS = (Sys.run p ops).nS + 1
        ∧ shared_ptr.use_count { ptr := q, cb := true }
            (Sys.step (Sys.run p ops) Op.copyS).w = (Sys.run p ops).nS + 1)
    ∧ ((Sys.run p ops).nS ≠ 0 →
        (Sys.step (Sys.run p ops) Op.destroyS).nS = (Sys.run p ops).nS - 1
        ∧ shared_ptr.use_count { ptr := q, cb := true }
            (Sys.step (Sys.run p ops) Op.destroyS).w = (Sys.run p ops).nS - 1) := by
  have h := Inv.run p ops
  refine ⟨?_, ?_, use_count_linked h q, ?_, ?_⟩
  · simp [shared_ptr.use_count, shared_ptr.null]
  · simp [shared_ptr.use_count, World.fresh, World.get_shared_cnt,
      control_block.mk0, control_block.inc_shared]
  · intro hne
    have hstep : (Sys.step (Sys.run p ops) Op.copyS).nS = (Sys.run p ops).nS + 1 := by
      simp [Sys.step, hne]
    exact ⟨hstep, by rw [use_count_linked (h.step Op.copyS) q, hstep]⟩
  · intro hne
    have hstep : (Sys.step (Sys.run p ops) Op.destroyS).nS = (Sys.run p ops).nS - 1 := by
      simp [Sys.step, hne]
    exact ⟨hstep, by rw [use_count_linked (h.step Op.destroyS) q, hstep]⟩

/-- Claim C3: adopting a raw pointer with a deleter when the control-block
allocation fails invokes the supplied deleter exactly once, on the supplied
raw pointer, before the failure propagates (the `catch (...) { d(ptr);
throw; }` of the constructor's function-try-block), and produces no owning
pointer. -/
theorem adopt_alloc_failure_runs_deleter (p : Option Nat) :
    adopt p false = Except.error [p]
    ∧ ∀ sp w, adopt p false ≠ Except.ok (sp, w) := by
  refine ⟨rfl, ?_⟩
  intro sp w h
  simp [adopt] at h

/-- Claim C4: `lock()` on an observer whose control-block field is null, or
whose block's shared count is zero, returns a default-constructed (empty)
owning pointer — `use_count() = 0`, boolean conversion false — and changes
nothing; otherwise it returns an owning pointer over the same raw pointer,
linked to the block, and the shared count after the call is exactly one
greater than immediately before.  `lock()` is a total function: it never
fails. -/
theorem lock_spec (pw : weak_ptr) (w : World) :
    ((pw.cb = false ∨ w.get_shared_cnt = 0) →
      (weak_ptr.lock pw w).1 = shared_ptr.null
      ∧ shared_ptr.use_count (weak_ptr.lock pw w).1 (weak_ptr.lock pw w).2 = 0
      ∧ shared_ptr.toBool (weak_ptr.lock pw w).1 = false
      ∧ (weak_ptr.lock pw w).2 = w)
    ∧ (pw.cb = true → w.get_shared_cnt ≠ 0 →
      (weak_ptr.lock pw w).1.ptr = pw.ptr
      ∧ (weak_ptr.lock pw w).1.cb = true
      ∧ (weak_ptr.lock pw w).2.get_shared_cnt = w.get_shared_cnt + 1
      ∧ shared_ptr.use_count (weak_ptr.lock pw w).1 (weak_ptr.lock pw w).2
          = w.get_shared_cnt + 1) := by
  constructor
  · intro hcond
    simp only [weak_ptr.lock, if_pos hcond]
    simp [shared_ptr.use_count, shared_ptr.null, shared_ptr.toBool]
  · intro hcb hsh
    have hcond : ¬(pw.cb = false ∨ w.get_shared_cnt = 0) := by
      simp [hcb, hsh]
    simp only [weak_ptr.lock, if_neg hcond]
    cases hwc : w.cb with
    | none => simp [World.get_shared_cnt, hwc] at hsh
    | some c =>
        simp [shared_ptr.use_count, World.get_shared_cnt, World.inc_shared, hwc,
          control_block.inc_shared]

/-- Claim C9: `reset()` and `reset(ptr[, d])` are the swap-with-temporary
idiom.  Resetting to null replaces `*this` by a null pointer and releases the
old ownership through the destructor path; resetting to a raw pointer first
establishes the new ownership (a fresh block with shared count one) and only
then releases the old one, and when the temporary's control-block allocation
fails, `*this` and the old block are returned untouched while the failure
(with the deleter already applied to the new raw pointer) propagates. -/
theorem reset_swap_with_temporary (self : shared_ptr) (w : World)
    (p : Option Nat) :
    shared_ptr.reset_null self w = (shared_ptr.null, shared_ptr.destroy self w)
    ∧ shared_ptr.reset_ptr self w p false = ResetResult.fail [p] self w
    ∧ shared_ptr.reset_ptr self w p true
        = ResetResult.ok { ptr := p, cb := true } (World.fresh p)
            (shared_ptr.destroy self w)
    ∧ (World.fresh p).get_shared_cnt = 1 := by
  exact ⟨rfl, rfl, rfl, rfl⟩

/-- Claim C5, the failing part, evaluated at a concrete failing input: with
the embedded storage at address 7 and one rvalue argument, `make_shared`
does return an owning pointer into the storage over a block with shared count
one, but the managed object's constructor receives the argument as an
lvalue — `make_shared` expands the pack as `args...` with no `std::forward`,
so the argument's value category is not preserved. -/
theorem make_shared_drops_value_category :
    (make_shared 7 [(0, Cat.rvalue)]).1 = { ptr := some 7, cb := true }
    ∧ (make_shared 7 [(0, Cat.rvalue)]).2.1.get_shared_cnt = 1
    ∧ (make_shared 7 [(0, Cat.rvalue)]).2.1.obj_ptr = some 7
    ∧ (make_shared 7 [(0, Cat.rvalue)]).2.2 = [(0, Cat.lvalue)]
    ∧ (make_shared 7 [(0, Cat.rvalue)]).2.2 ≠ [(0, Cat.rvalue)] := by
  exact ⟨rfl, rfl, rfl, rfl, by decide⟩

/-- Counterexample to claim C6 as stated: adopting a null raw pointer with a
deleter succeeds with an allocated control block, and the produced owning
pointer reports `use_count() = 1`, not 0 — different from the
default-constructed owning pointer's 0. -/
theorem null_deleter_use_count_one :
    adopt (none : Option Nat) true
      = Except.ok ({ ptr := none, cb := true }, World.fresh none)
    ∧ shared_ptr.use_count { ptr := none, cb := true } (World.fresh none) = 1
    ∧ shared_ptr.use_count shared_ptr.null (World.fresh none) = 0
    ∧ shared_ptr.use_count { ptr := none, cb := true } (World.fresh none)
        ≠ shared_ptr.use_count shared_ptr.null (World.fresh none) := by
  exact ⟨rfl, rfl, rfl, by decide⟩

/-- Claim C6 as amended: adopting a null raw pointer with a deleter allocates
a control block and yields an empty-looking owning pointer (boolean
conversion false) with a non-null control-block link; it reports
`use_count() = 1`, unlike the default-constructed owning pointer's 0, and its
destruction invokes the deleter once, on the null pointer, while destroying a
default-constructed pointer invokes nothing. -/
theorem null_deleter_adopt_state :
    adopt (none : Option Nat) true
      = Except.ok ({ ptr := none, cb := true }, World.fresh none)
    ∧ (World.fresh none).cb ≠ none
    ∧ shared_ptr.toBool { ptr := none, cb := true } = false
    ∧ shared_ptr.use_count { ptr := none, cb := true } (World.fresh none) = 1
    ∧ shared_ptr.use_count shared_ptr.null (World.fresh none) = 0
    ∧ (shared_ptr.destroy { ptr := none, cb := true } (World.fresh none)).hook_log
        = [none]
    ∧ shared_ptr.destroy shared_ptr.null (World.fresh none) = World.fresh none := by
  refine ⟨rfl, by decide, rfl, rfl, rfl, by decide, rfl⟩

/-- Counterexample to claim C7 as stated: the public adopting constructor
applied to a null raw pointer with a deleter produces an owning pointer whose
raw pointer is null while its control-block link is non-null, so "raw pointer
non-null iff control-block reference non-null" fails on a public construction
path. -/
theorem ptr_iff_cb_fails :
    adopt (none : Option Nat) true
      = Except.ok ({ ptr := none, cb := true }, World.fresh none)
    ∧ ({ ptr := none, cb := true } : shared_ptr).cb = true
    ∧ ({ ptr := none, cb := true } : shared_ptr).ptr = none
    ∧ ¬(({ ptr := none, cb := true } : shared_ptr).ptr ≠ none
        ↔ ({ ptr := none, cb := true } : shared_ptr).cb = true) := by
  refine ⟨rfl, rfl, rfl, by decide⟩

/-- Claim C7 as amended: a default-constructed or null-constructed owning
pointer has both fields null, but the biconditional "raw pointer non-null iff
control-block link non-null" does not hold on every public construction path:
adopting a null raw pointer with a deleter yields a null raw pointer with a
live control-block link, and the aliasing constructor applied to an empty
source and a non-null pointer yields a non-null raw pointer with a null
control-block link. -/
theorem ptr_cb_nullity_amended (q : Nat) (w : World) :
    shared_ptr.null.ptr = none
    ∧ shared_ptr.null.cb = false
    ∧ adopt (none : Option Nat) true
        = Except.ok ({ ptr := none, cb := true }, World.fresh none)
    ∧ (shared_ptr.aliasCtor shared_ptr.null (some q) w).1.ptr = some q
    ∧ (shared_ptr.aliasCtor shared_ptr.null (some q) w).1.cb = false := by
  refine ⟨rfl, rfl, rfl, ?_, ?_⟩ <;>
    simp [shared_ptr.aliasCtor, shared_ptr.null]

/-- Claim C10: the aliasing constructor applied to an empty source (null
control-block field) stores the caller-supplied raw pointer with a null
control-block link and leaves the world unchanged; if that raw pointer is
non-null the result converts to true while `use_count()` is 0; and its
destruction releases nothing — no hook invocation, no deallocation, no world
change at all. -/
theorem alias_from_empty (src : shared_ptr) (q : Option Nat) (w : World)
    (hsrc : src.cb = false) :
    (shared_ptr.aliasCtor src q w).1.ptr = q
    ∧ (shared_ptr.aliasCtor src q w).1.cb = false
    ∧ (shared_ptr.aliasCtor src q w).2 = w
    ∧ shared_ptr.use_count (shared_ptr.aliasCtor src q w).1 w = 0
    ∧ (q.isSome = true →
        shared_ptr.toBool (shared_ptr.aliasCtor src q w).1 = true)
    ∧ shared_ptr.destroy (shared_ptr.aliasCtor src q w).1 w = w := by
  simp [shared_ptr.aliasCtor, hsrc, shared_ptr.use_count, shared_ptr.destroy,
    shared_ptr.toBool]

/-- Witness for `alias_from_empty` at a concrete input: aliasing from a
default-constructed owning pointer with the raw pointer 2 over the world of
a fresh adoption of the pointer 7. -/
theorem alias_from_empty_witness :
    (shared_ptr.aliasCtor shared_ptr.null (some 2) (World.fresh (some 7))).1.ptr
        = some 2
    ∧ (shared_ptr.aliasCtor shared_ptr.null (some 2) (World.fresh (some 7))).1.cb
        = false
    ∧ (shared_ptr.aliasCtor shared_ptr.null (some 2) (World.fresh (some 7))).2
        = World.fresh (some 7)
    ∧ shared_ptr.use_count
        (shared_ptr.aliasCtor shared_ptr.null (some 2) (World.fresh (some 7))).1
        (World.fresh (some 7)) = 0
    ∧ ((some 2 : Option Nat).isSome = true →
        shared_ptr.toBool
          (shared_ptr.aliasCtor shared_ptr.null (some 2)
            (World.fresh (some 7))).1 = true)
    ∧ shared_ptr.destroy
        (shared_ptr.aliasCtor shared_ptr.null (some 2) (World.fresh (some 7))).1
        (World.fresh (some 7)) = World.fresh (some 7) :=
  alias_from_empty shared_ptr.null (some 2) (World.fresh (some 7)) rfl

end SharedPtrModel
